import Mathlib

/-!
# Verification of the reliability control plane of `super-pancake`

Shallow embedding of the retry/backoff engine (`src/retry.ts`, shown in
`src/health.ts`), the TTL credential cache (`src/secretsCache.ts`, shown in
`src/fileOperations.ts`), the metrics batching subsystem
(`src/monitoringOptimized.ts`), the Lambda lifecycle cleanup
(`src/lambdaCleanup.ts`) and the fixed-window rate limiter
(`src/validation.ts`).

JS numbers are modelled as `ℚ` (durations, metric values) or `ℤ`
(timestamps in milliseconds); `Math.floor` is `Int.floor`.  Async
operations are modelled as pure state transformers; the external
collaborators (Secrets Manager, CloudWatch, git) are oracles passed in as
parameters describing the outcome of each external call.
-/

namespace SuperPancake

/-! ## Retry engine (`src/retry.ts`) -/

/-- Structure `RetryConfig` from `src/retry.ts`. -/
structure RetryConfig where
  maxAttempts : Int
  baseDelayMs : ℚ
  maxDelayMs : ℚ
  backoffMultiplier : ℚ
  jitter : Bool
deriving Repr, DecidableEq

/-- A thrown JS error as observed by the retry engine: `message` is
`error.message || error.toString()`, `code` is `error.code || error.name`. -/
structure JsError where
  message : String
  code : String
deriving Repr, DecidableEq

/-- Constant `RETRYABLE_ERRORS` from `src/retry.ts`. -/
def RETRYABLE_ERRORS : List String :=
  ["ECONNRESET", "ENOTFOUND", "ECONNREFUSED", "ETIMEDOUT", "ENETUNREACH",
   "ThrottlingException", "ServiceUnavailableException",
   "TooManyRequestsException"]

/-- Executable check that `l₁` occurs as a contiguous run inside `l₂`. -/
def listIsInfixOf (l₁ : List Char) : List Char → Bool
  | [] => l₁.isEmpty
  | c :: t => l₁.isPrefixOf (c :: t) || listIsInfixOf l₁ t

/-- JS `String.prototype.includes`. -/
def strIncludes (s pat : String) : Bool :=
  listIsInfixOf pat.data s.data

/-- Function `isRetryableError` from `src/retry.ts`; `none` models a falsy error
value (the `if (!error) return false` guard). -/
def isRetryableError (error : Option JsError) : Bool :=
  match error with
  | none => false
  | some e =>
      RETRYABLE_ERRORS.any fun retryableError =>
        strIncludes e.message retryableError || e.code == retryableError

/-- Function `calculateDelay` from `src/retry.ts`.  `rand` models the value of
`Math.random()` (in `[0,1)`); JS `Math.floor` is `Int.floor`. -/
def calculateDelay (attempt : Nat) (config : RetryConfig) (rand : ℚ) : Int :=
  let delay := config.baseDelayMs * config.backoffMultiplier ^ attempt
  let delay := min delay config.maxDelayMs
  let delay := if config.jitter then delay * (1/2 + rand * (1/2)) else delay
  ⌊delay⌋

/-- The data carried by the error thrown at the end of `withRetry`:
the code throws ``new Error(`${context} - Failed after ${config.maxAttempts}
attempts. Last error: ${lastError?.message || lastError}`)``, i.e. the
message is rendered from the context label, `config.maxAttempts`, and the
last caught error (`none` when no attempt ran, rendered as `undefined`). -/
structure RetryFailure where
  context : String
  reportedAttempts : Int
  lastError : Option JsError
deriving Repr, DecidableEq

/-- The loop body of `withRetry`.  `ops i` is the outcome of the `i`-th
invocation of `fn` (0-based); `fuel` is the number of loop iterations still
allowed (`config.maxAttempts - attempt`), so `fuel = 1` means this is the
last attempt (`attempt == config.maxAttempts - 1`).  Returns the overall
outcome together with the number of times `fn` was invoked. -/
def withRetryLoop {α : Type} (ops : Nat → Except JsError α)
    (config : RetryConfig) (context : String) :
    Nat → Nat → Option JsError → Nat → Except RetryFailure α × Nat
  | _, 0, lastError, calls =>
      (.error ⟨context, config.maxAttempts, lastError⟩, calls)
  | attempt, fuel + 1, _, calls =>
      match ops attempt with
      | .ok result => (.ok result, calls + 1)
      | .error e =>
          -- Don't retry on the last attempt
          if fuel = 0 then
            (.error ⟨context, config.maxAttempts, some e⟩, calls + 1)
          -- Don't retry if error is not retryable
          else if !isRetryableError (some e) then
            (.error ⟨context, config.maxAttempts, some e⟩, calls + 1)
          -- (the inter-attempt `calculateDelay`/`setTimeout` wait has no
          -- effect on the returned value)
          else
            withRetryLoop ops config context (attempt + 1) fuel (some e)
              (calls + 1)

/-- Function `withRetry` from `src/retry.ts`: the `for` loop runs `attempt` from `0`
while `attempt < config.maxAttempts`, so it iterates
`config.maxAttempts.toNat` times. -/
def withRetry {α : Type} (ops : Nat → Except JsError α)
    (config : RetryConfig) (context : String) :
    Except RetryFailure α × Nat :=
  withRetryLoop ops config context 0 config.maxAttempts.toNat none 0

/-! ## Credential cache (`src/secretsCache.ts`) -/

/-- Structure `SecretsConfig` from `src/secretsCache.ts`. -/
structure SecretsConfig where
  gitUserEmail : String
  gitUserName : String
  githubToken : String
  repositoryUrl : String
deriving Repr, DecidableEq

/-- Structure `CachedSecret` from `src/secretsCache.ts`: timestamps and TTLs are
milliseconds. -/
structure CachedSecret where
  data : SecretsConfig
  timestamp : Int
  ttl : Int
deriving Repr, DecidableEq

/-- The `secretsCache` map: association list keyed by secret name (at most
one binding per key, `cacheSet` replaces). -/
abbrev CacheState := List (String × CachedSecret)

/-- Operation `Map.prototype.get`. -/
def cacheGet (cache : CacheState) (key : String) : Option CachedSecret :=
  (List.find? (fun p => p.1 == key) cache).map (·.2)

/-- Operation `Map.prototype.set`. -/
def cacheSet (cache : CacheState) (key : String) (v : CachedSecret) :
    CacheState :=
  (key, v) :: List.eraseP (fun p => p.1 == key) cache

/-- The parsed JSON payload of a Secrets Manager response; a field the JSON
object lacks is `none`. -/
structure SecretsResponse where
  gitUserEmail : Option String
  gitUserName : Option String
  githubToken : Option String
  repositoryUrl : Option String
deriving Repr, DecidableEq

/-- The outcome of one `secretsClient.send(GetSecretValueCommand)` call. -/
inductive FetchOutcome where
  /-- the send itself rejected with an error carrying this message -/
  | sendError (msg : String)
  /-- the response had no / empty `SecretString` -/
  | emptySecret
  /-- the parsed secret JSON object -/
  | payload (resp : SecretsResponse)
deriving Repr, DecidableEq

/-- JS truthiness of `secrets[field]`: `undefined` and `""` are falsy. -/
def truthy (v : Option String) : Bool :=
  match v with
  | none => false
  | some s => s != ""

/-- The `requiredFields` list of `getCachedSecrets`, paired with the field
accessors, in source order. -/
def requiredFields : List (String × (SecretsResponse → Option String)) :=
  [("gitUserEmail", SecretsResponse.gitUserEmail),
   ("gitUserName", SecretsResponse.gitUserName),
   ("githubToken", SecretsResponse.githubToken),
   ("repositoryUrl", SecretsResponse.repositoryUrl)]

/-- The validation loop of `getCachedSecrets`: the first required field
that is falsy (the loop throws at the first one). -/
def firstMissingField (resp : SecretsResponse) : Option String :=
  (List.find? (fun p => !truthy (p.2 resp)) requiredFields).map (·.1)

/-- Cast `secrets as SecretsConfig` (all required fields are truthy when
this is reached). -/
def toSecretsConfig (resp : SecretsResponse) : SecretsConfig :=
  { gitUserEmail := resp.gitUserEmail.getD ""
    gitUserName := resp.gitUserName.getD ""
    githubToken := resp.githubToken.getD ""
    repositoryUrl := resp.repositoryUrl.getD "" }

/-- The `try { ... } catch` body of `getCachedSecrets` after a cache miss:
fetch fresh, validate, store.  Returns the result, the new cache state, and
the number of fetch calls made (here always 1).  Every thrown error is
re-thrown by the catch block as
`Failed to retrieve secrets: ${error.message}`. -/
def fetchFreshSecrets (secretName : String) (ttl : Int) (now : Int)
    (fetch : FetchOutcome) (cache : CacheState) :
    Except String SecretsConfig × CacheState × Nat :=
  match fetch with
  | .sendError msg =>
      (.error ("Failed to retrieve secrets: " ++ msg), cache, 1)
  | .emptySecret =>
      (.error "Failed to retrieve secrets: Secret value is empty or not found",
       cache, 1)
  | .payload resp =>
      match firstMissingField resp with
      | some field =>
          (.error ("Failed to retrieve secrets: Missing required secret field: "
              ++ field), cache, 1)
      | none =>
          let secretsConfig := toSecretsConfig resp
          (.ok secretsConfig,
           cacheSet cache secretName ⟨secretsConfig, now, ttl⟩, 1)

/-- Function `getCachedSecrets` from `src/secretsCache.ts`.  `now` is `Date.now()`
at entry; `fetch` is the outcome the Secrets Manager collaborator would
produce if called.  Returns the result, the cache state afterwards, and how
many fetch calls were made (0 or 1). -/
def getCachedSecrets (secretName : String) (ttl : Int) (now : Int)
    (fetch : FetchOutcome) (cache : CacheState) :
    Except String SecretsConfig × CacheState × Nat :=
  match cacheGet cache secretName with
  | some cached =>
      if now - cached.timestamp < cached.ttl then (.ok cached.data, cache, 0)
      else fetchFreshSecrets secretName ttl now fetch cache
  | none => fetchFreshSecrets secretName ttl now fetch cache

/-- Function `clearSecretsCache()` with no argument: `secretsCache.clear()`. -/
def clearSecretsCache (_cache : CacheState) : CacheState := []

/-! ## Metrics batching (`src/monitoringOptimized.ts`)

The module-level `let metricsCache: OptimizedMetrics[] = []` is one array
object; at module load `global.metricsCache = metricsCache` makes the
global property an *alias* of that array.  `metricsCache.push(...)`
mutates the array in place (visible through both references while they
alias), whereas `metricsCache = []` (in `sendBatchedMetrics`) and
`global.metricsCache = []` (in `cleanupLambdaState`) rebind one reference
to a fresh array and leave the other pointing at the old one.  The state
below tracks the contents seen through each reference plus whether they
still alias; pushes are the only in-place mutations, and they happen only
through the module reference. -/

/-- Structure `OptimizedMetrics` from `src/monitoringOptimized.ts`. -/
structure OptimizedMetrics where
  executionDuration : ℚ
  success : Bool
  errorCount : Nat
  retryCount : Nat
deriving Repr, DecidableEq

/-- The module-level mutable state of `src/monitoringOptimized.ts`. -/
structure MetricsState where
  /-- contents of the array the module-level `metricsCache` variable points at -/
  moduleBatch : List OptimizedMetrics
  /-- contents of the array the `global.metricsCache` property points at -/
  globalBatch : List OptimizedMetrics
  /-- whether the two references still point at the same array -/
  aliased : Bool
  /-- `lastMetricsSend` -/
  lastMetricsSend : Int
deriving Repr, DecidableEq

/-- The state right after module load: one empty array, globally exposed. -/
def initialMetricsState : MetricsState :=
  { moduleBatch := [], globalBatch := [], aliased := true,
    lastMetricsSend := 0 }

/-- Constant `METRICS_BATCH_TIMEOUT` (5 minutes, ms). -/
def METRICS_BATCH_TIMEOUT : Int := 300000

/-- The `aggregatedMetrics` object computed in `sendBatchedMetrics` over
the current batch. -/
structure AggregatedMetric where
  totalExecutions : Nat
  successfulExecutions : Nat
  failedExecutions : Nat
  averageDuration : ℚ
  totalErrors : Nat
  totalRetries : Nat
deriving Repr, DecidableEq

/-- The aggregation in `sendBatchedMetrics`. -/
def aggregate (batch : List OptimizedMetrics) : AggregatedMetric :=
  { totalExecutions := batch.length
    successfulExecutions := (batch.filter (fun m => m.success)).length
    failedExecutions := (batch.filter (fun m => !m.success)).length
    averageDuration :=
      (batch.map (fun m => m.executionDuration)).sum / (batch.length : ℚ)
    totalErrors := (batch.map (fun m => m.errorCount)).sum
    totalRetries := (batch.map (fun m => m.retryCount)).sum }

/-- Function `sendBatchedMetrics` from `src/monitoringOptimized.ts`.  `sinkOk` is
whether the CloudWatch `send` succeeds; `now` is `Date.now()` during the
call.  Returns the new state and the aggregate that was transmitted (or
attempted), `none` for the empty-batch no-op.  On success the code runs
`metricsCache = []; lastMetricsSend = Date.now()`; in the catch block it
runs only `metricsCache = []` ("Clear cache even on failure"), leaving
`lastMetricsSend` untouched.  Either reassignment breaks the alias with
`global.metricsCache`. -/
def sendBatchedMetrics (sinkOk : Bool) (now : Int) (s : MetricsState) :
    MetricsState × Option AggregatedMetric :=
  if s.moduleBatch.isEmpty then (s, none)
  else
    let agg := aggregate s.moduleBatch
    if sinkOk then
      ({ s with moduleBatch := [], aliased := false, lastMetricsSend := now },
       some agg)
    else
      ({ s with moduleBatch := [], aliased := false }, some agg)

/-- Function `sendOptimizedMetrics` from `src/monitoringOptimized.ts`.
`batchSize` is `METRICS_BATCH_SIZE` (`config.metricsBatchSize`).  Returns
the new state, whether a flush (`sendBatchedMetrics`) was triggered, and
the aggregate it sent.  The push mutates the array in place, so it is
visible through `global.metricsCache` too while the references alias. -/
def sendOptimizedMetrics (batchSize : Nat) (metrics : OptimizedMetrics)
    (now : Int) (sinkOk : Bool) (s : MetricsState) :
    MetricsState × Bool × Option AggregatedMetric :=
  let pushed : MetricsState :=
    { s with
      moduleBatch := s.moduleBatch ++ [metrics]
      globalBatch :=
        if s.aliased then s.moduleBatch ++ [metrics] else s.globalBatch }
  let shouldSend :=
    pushed.moduleBatch.length ≥ batchSize ||
      decide (now - s.lastMetricsSend > METRICS_BATCH_TIMEOUT)
  if shouldSend then
    let (s', agg) := sendBatchedMetrics sinkOk now pushed
    (s', true, agg)
  else
    (pushed, false, none)

/-- A run of `sendOptimizedMetrics` calls, one per `(metric, time)` event,
accumulating the number of flushes and the aggregates they transmitted. -/
def recordRun (batchSize : Nat) (sinkOk : Bool) :
    List (OptimizedMetrics × Int) → MetricsState →
    MetricsState × Nat × List AggregatedMetric
  | [], s => (s, 0, [])
  | (m, t) :: rest, s =>
      let step := sendOptimizedMetrics batchSize m t sinkOk s
      let r := recordRun batchSize sinkOk rest step.1
      (r.1, (if step.2.1 then 1 else 0) + r.2.1, step.2.2.toList ++ r.2.2)

/-! ## Lambda lifecycle cleanup (`src/lambdaCleanup.ts`) -/

/-- The outcomes of the three git commands `resetGitState` may run. -/
structure GitEnv where
  revParse : Except String String
  resetHard : Except String String
  cleanFd : Except String String
deriving Repr

/-- Function `resetGitState` from `src/lambdaCleanup.ts`: if `git rev-parse` fails,
return (not a repository); failures of `git reset --hard HEAD` and
`git clean -fd` are each caught and only logged; the outer try/catch also
swallows.  It touches no in-process state. -/
def resetGitState (env : GitEnv) : Except String Unit :=
  match env.revParse with
  | .error _ => .ok ()  -- Not a git repository, nothing to reset
  | .ok _ =>
      -- reset failure: caught, logged, execution continues
      -- clean failure: caught, logged, execution continues
      .ok ()

/-- The combined in-process state `cleanupLambdaState` operates on. -/
structure LambdaState where
  secretsCache : CacheState
  metrics : MetricsState
deriving DecidableEq

/-- Function `cleanupLambdaState` from `src/lambdaCleanup.ts`:
1. `clearSecretsCache()`;
2. `global.metricsCache = []` — this rebinds the *global property* to a
   fresh empty array (the guard is truthy: an array, even empty, is
   truthy), leaving the module-level `metricsCache` array of
   `monitoringOptimized` untouched;
3. `resetGitState()` (external git commands only, see `resetGitState`);
the whole body is inside `try { ... } catch` that logs and does not
rethrow. -/
def cleanupLambdaState (env : GitEnv) (s : LambdaState) :
    Except String LambdaState :=
  let afterCache : LambdaState := { s with secretsCache := clearSecretsCache s.secretsCache }
  let afterMetrics : LambdaState :=
    { afterCache with
      metrics := { afterCache.metrics with globalBatch := [], aliased := false } }
  match resetGitState env with
  | .ok _ => .ok afterMetrics
  | .error _ => .ok afterMetrics  -- catch: logged, never rethrown

/-! ## Rate limiter (`src/validation.ts`) -/

/-- A `rateLimitMap` entry. -/
structure RateLimitEntry where
  count : Nat
  resetTime : Int
deriving Repr, DecidableEq

/-- The `rateLimitMap`: association list keyed by identifier. -/
abbrev RateLimitState := List (String × RateLimitEntry)

/-- Operation `Map.prototype.get` for the rate-limit map. -/
def rateGet (s : RateLimitState) (key : String) : Option RateLimitEntry :=
  (List.find? (fun p => p.1 == key) s).map (·.2)

/-- Operation `Map.prototype.set` for the rate-limit map. -/
def rateSet (s : RateLimitState) (key : String) (v : RateLimitEntry) :
    RateLimitState :=
  (key, v) :: List.eraseP (fun p => p.1 == key) s

/-- Function `checkRateLimit` from `src/validation.ts`; `now` is `Date.now()`.
`current.count++` mutates the stored entry in place, modelled by
re-storing the incremented entry. -/
def checkRateLimit (identifier : String) (maxRequests : Nat) (windowMs : Int)
    (now : Int) (s : RateLimitState) : Bool × RateLimitState :=
  match rateGet s identifier with
  | none =>
      (true, rateSet s identifier ⟨1, now + windowMs⟩)
  | some current =>
      if now > current.resetTime then
        -- Reset or initialize
        (true, rateSet s identifier ⟨1, now + windowMs⟩)
      else if current.count ≥ maxRequests then
        (false, s)
      else
        (true, rateSet s identifier ⟨current.count + 1, current.resetTime⟩)

/-- Iterated `checkRateLimit` for one identifier: one call per timestamp,
collecting the returned booleans. -/
def rateLimitRun (identifier : String) (maxRequests : Nat) (windowMs : Int) :
    List Int → RateLimitState → List Bool × RateLimitState
  | [], s => ([], s)
  | t :: ts, s =>
      let (b, s') := checkRateLimit identifier maxRequests windowMs t s
      let (bs, s'') := rateLimitRun identifier maxRequests windowMs ts s'
      (b :: bs, s'')

/-! ## Shared helper lemmas -/

/-- Looking up the key just stored by `cacheSet` yields the stored entry. -/
theorem cacheGet_cacheSet_self (cache : CacheState) (key : String)
    (v : CachedSecret) : cacheGet (cacheSet cache key v) key = some v := by
  simp [cacheGet, cacheSet]

/-- Looking up the key just stored by `rateSet` yields the stored entry. -/
theorem rateGet_rateSet_self (s : RateLimitState) (key : String)
    (v : RateLimitEntry) : rateGet (rateSet s key v) key = some v := by
  simp [rateGet, rateSet]

/-- Function `fetchFreshSecrets` always makes exactly one fetch call. -/
theorem fetchFreshSecrets_fetches_one (secretName : String) (ttl now : Int)
    (fetch : FetchOutcome) (cache : CacheState) :
    (fetchFreshSecrets secretName ttl now fetch cache).2.2 = 1 := by
  cases fetch with
  | sendError msg => rfl
  | emptySecret => rfl
  | payload resp =>
      cases h : firstMissingField resp <;> simp [fetchFreshSecrets, h]

/-! ## Claim theorems -/

/-- **C4.** For every `attempt ≥ 0` and every policy with `jitter = false`,
`calculateDelay(attempt, p)` equals
`min(p.baseDelayMs * p.backoffMultiplier ^ attempt, p.maxDelayMs)` exactly,
floored to the integer millisecond resolution. -/
theorem calculateDelay_no_jitter (attempt : Nat) (config : RetryConfig)
    (rand : ℚ) (h : config.jitter = false) :
    calculateDelay attempt config rand =
      ⌊min (config.baseDelayMs * config.backoffMultiplier ^ attempt)
        config.maxDelayMs⌋ := by
  simp [calculateDelay, h]

/-- Witness for `calculateDelay_no_jitter` at a concrete policy
(base 100ms, multiplier 2, cap 500ms, attempt 3). -/
theorem calculateDelay_no_jitter_witness :
    (RetryConfig.mk 3 100 500 2 false).jitter = false ∧
      calculateDelay 3 (RetryConfig.mk 3 100 500 2 false) 0 =
        ⌊min ((100 : ℚ) * 2 ^ 3) (500 : ℚ)⌋ :=
  ⟨rfl, calculateDelay_no_jitter 3 (RetryConfig.mk 3 100 500 2 false) 0 rfl⟩

/-- **C10.** Whether `getCachedSecrets` serves an existing cached entry is
decided solely by the TTL stored inside the entry, never by the `ttl`
argument of the current call: a call with a `ttl` argument `t2` smaller
than the entry's current age still returns the cached value with no fetch,
provided the entry's own stored TTL has not yet elapsed. -/
theorem getCachedSecrets_uses_stored_ttl (key : String) (t2 now : Int)
    (fetch : FetchOutcome) (cache : CacheState) (entry : CachedSecret)
    (hget : cacheGet cache key = some entry)
    (hfresh : now - entry.timestamp < entry.ttl)
    (_hsmall : t2 < now - entry.timestamp) :
    getCachedSecrets key t2 now fetch cache = (.ok entry.data, cache, 0) := by
  simp [getCachedSecrets, hget, hfresh]

/-- Witness for `getCachedSecrets_uses_stored_ttl`: entry stored at time 0
with TTL 1000, queried at time 500 with a `ttl` argument of 100. -/
theorem getCachedSecrets_uses_stored_ttl_witness :
    cacheGet [("k", CachedSecret.mk (SecretsConfig.mk "e" "n" "t" "r") 0 1000)]
        "k" = some (CachedSecret.mk (SecretsConfig.mk "e" "n" "t" "r") 0 1000) ∧
    (500 : Int) - 0 < 1000 ∧ (100 : Int) < 500 - 0 ∧
    getCachedSecrets "k" 100 500 (.sendError "unreachable")
        [("k", CachedSecret.mk (SecretsConfig.mk "e" "n" "t" "r") 0 1000)] =
      (.ok (SecretsConfig.mk "e" "n" "t" "r"),
       [("k", CachedSecret.mk (SecretsConfig.mk "e" "n" "t" "r") 0 1000)], 0) :=
  ⟨by decide, by decide, by decide,
   getCachedSecrets_uses_stored_ttl "k" 100 500 (.sendError "unreachable")
     [("k", CachedSecret.mk (SecretsConfig.mk "e" "n" "t" "r") 0 1000)]
     (CachedSecret.mk (SecretsConfig.mk "e" "n" "t" "r") 0 1000)
     (by decide) (by decide) (by decide)⟩

/-- **C7.** When `getCachedSecrets` must fetch fresh (no valid cached
entry): a store response missing a required field fails with an error
naming the missing field, and a failing fetch fails with a fetch-failure
error; in both cases the cache is left exactly as it was (no new entry is
stored, a pre-existing expired entry remains), and the result is an error,
so no stale entry is served. -/
theorem getCachedSecrets_failure_paths (key : String) (ttl now : Int)
    (cache : CacheState) (resp : SecretsResponse) (field msg : String)
    (hstale : ∀ e, cacheGet cache key = some e → ¬ now - e.timestamp < e.ttl)
    (hmiss : firstMissingField resp = some field) :
    getCachedSecrets key ttl now (.payload resp) cache =
      (.error ("Failed to retrieve secrets: Missing required secret field: "
          ++ field), cache, 1) ∧
    getCachedSecrets key ttl now (.sendError msg) cache =
      (.error ("Failed to retrieve secrets: " ++ msg), cache, 1) := by
  cases hc : cacheGet cache key with
  | none =>
      refine ⟨?_, ?_⟩ <;> simp [getCachedSecrets, hc, fetchFreshSecrets, hmiss]
  | some e =>
      have he := hstale e hc
      refine ⟨?_, ?_⟩ <;>
        simp [getCachedSecrets, hc, he, fetchFreshSecrets, hmiss]

/-- Witness for `getCachedSecrets_failure_paths`: an expired entry
(stored at 0, TTL 100, queried at 200) and a response whose
`githubToken` is the empty string. -/
theorem getCachedSecrets_failure_paths_witness :
    (∀ e, cacheGet
        [("k", CachedSecret.mk (SecretsConfig.mk "e" "n" "t" "r") 0 100)] "k" =
          some e → ¬ (200 : Int) - e.timestamp < e.ttl) ∧
    firstMissingField (SecretsResponse.mk (some "e") (some "n") (some "")
        (some "r")) = some "githubToken" ∧
    (getCachedSecrets "k" 300000 200
        (.payload (SecretsResponse.mk (some "e") (some "n") (some "")
          (some "r")))
        [("k", CachedSecret.mk (SecretsConfig.mk "e" "n" "t" "r") 0 100)] =
      (.error "Failed to retrieve secrets: Missing required secret field: githubToken",
       [("k", CachedSecret.mk (SecretsConfig.mk "e" "n" "t" "r") 0 100)], 1) ∧
    getCachedSecrets "k" 300000 200 (.sendError "ECONNRESET")
        [("k", CachedSecret.mk (SecretsConfig.mk "e" "n" "t" "r") 0 100)] =
      (.error "Failed to retrieve secrets: ECONNRESET",
       [("k", CachedSecret.mk (SecretsConfig.mk "e" "n" "t" "r") 0 100)], 1)) :=
  ⟨by decide, by decide,
   getCachedSecrets_failure_paths "k" 300000 200 _ _ "githubToken" "ECONNRESET"
     (by decide) (by decide)⟩

/-- A one-element metrics batch used to exercise a failing flush. -/
def c2State : MetricsState :=
  { moduleBatch := [OptimizedMetrics.mk 5 true 0 0]
    globalBatch := [OptimizedMetrics.mk 5 true 0 0]
    aliased := true
    lastMetricsSend := 0 }

/-- **C2 (counterexample).** The claim that every flush on a non-empty
batch sets `lastMetricsSend` to the current time *unconditionally,
including when transmission fails* is false: with a non-empty batch and a
failing sink, `sendBatchedMetrics` at time 100 leaves `lastMetricsSend` at
its old value 0 (only the `metricsCache = []` reassignment runs in the
catch block). -/
theorem sendBatchedMetrics_failed_flush_keeps_lastMetricsSend :
    c2State.moduleBatch ≠ [] ∧
    (sendBatchedMetrics false 100 c2State).1.lastMetricsSend = 0 ∧
    (sendBatchedMetrics false 100 c2State).1.lastMetricsSend ≠ 100 := by
  refine ⟨by decide, ?_, ?_⟩ <;> decide

/-- **C2 (amended).** For every flush on a non-empty batch, after the call
returns the batch is empty — unconditionally, even when transmission
fails — and `lastMetricsSend` is set to the current time exactly when the
transmission succeeded (a failed transmission leaves it unchanged). -/
theorem sendBatchedMetrics_nonempty (sinkOk : Bool) (now : Int)
    (s : MetricsState) (h : s.moduleBatch ≠ []) :
    (sendBatchedMetrics sinkOk now s).1.moduleBatch = [] ∧
    (sendBatchedMetrics sinkOk now s).1.lastMetricsSend =
      (if sinkOk then now else s.lastMetricsSend) := by
  cases sinkOk <;> simp [sendBatchedMetrics, h]

/-- Witness for `sendBatchedMetrics_nonempty`: a successful flush at time
42 of a singleton batch. -/
theorem sendBatchedMetrics_nonempty_witness :
    (MetricsState.mk [OptimizedMetrics.mk 7 false 1 2] [] false 3).moduleBatch
        ≠ [] ∧
    ((sendBatchedMetrics true 42
        (MetricsState.mk [OptimizedMetrics.mk 7 false 1 2] [] false 3)).1.moduleBatch
        = [] ∧
      (sendBatchedMetrics true 42
        (MetricsState.mk [OptimizedMetrics.mk 7 false 1 2] [] false 3)).1.lastMetricsSend
        = (if true then 42 else 3)) :=
  ⟨by decide,
   sendBatchedMetrics_nonempty true 42
     (MetricsState.mk [OptimizedMetrics.mk 7 false 1 2] [] false 3)
     (by decide)⟩

/-- A cache entry present before cleanup runs. -/
def c1Entry : CachedSecret :=
  CachedSecret.mk (SecretsConfig.mk "e" "n" "t" "r") 0 300000

/-- A metric record sitting in the batch before cleanup runs. -/
def c1Metric : OptimizedMetrics := OptimizedMetrics.mk 12 true 0 1

/-- The Lambda state before cleanup: one cached credential, a one-element
metrics batch still aliased to `global.metricsCache`. -/
def c1State : LambdaState :=
  { secretsCache := [("daily-commit-secrets", c1Entry)]
    metrics :=
      { moduleBatch := [c1Metric], globalBatch := [c1Metric],
        aliased := true, lastMetricsSend := 0 } }

/-- A git environment whose checkout-reset commands fail. -/
def c1GitEnv : GitEnv :=
  GitEnv.mk (.ok ".git") (.error "git reset failed") (.error "git clean failed")

/-- **C1.** Evaluating `cleanupLambdaState` at a state holding one cached
credential and a one-element metrics batch (with failing git reset/clean):
the call never raises and the credential cache is emptied, but only the
`global.metricsCache` *property* is rebound to a fresh empty array — the
module-level `metricsCache` array of `monitoringOptimized`, which is the
Metrics Aggregator's actual in-memory batch, still holds its record, so
the batch is *not* left empty. -/
theorem cleanupLambdaState_leaves_module_batch :
    cleanupLambdaState c1GitEnv c1State =
      .ok (LambdaState.mk []
        (MetricsState.mk [c1Metric] [] false 0)) ∧
    [c1Metric] ≠ ([] : List OptimizedMetrics) := by
  refine ⟨rfl, by decide⟩

/-- **C9.** Fixed-window rate limiting: for a fresh caller identifier and
`maxRequests = 5`, the first five calls inside the window are allowed and
the sixth is denied; a call after the window has elapsed
(`now > windowResetAt`) installs a fresh entry with count 1 and is allowed
again. -/
theorem checkRateLimit_fixed_window (id : String) (windowMs : Int)
    (t₁ t₂ t₃ t₄ t₅ t₆ t₇ : Int) (s₀ : RateLimitState)
    (hfresh : rateGet s₀ id = none)
    (h₂ : ¬ t₂ > t₁ + windowMs) (h₃ : ¬ t₃ > t₁ + windowMs)
    (h₄ : ¬ t₄ > t₁ + windowMs) (h₅ : ¬ t₅ > t₁ + windowMs)
    (h₆ : ¬ t₆ > t₁ + windowMs)
    (h₇ : t₇ > t₁ + windowMs) :
    (rateLimitRun id 5 windowMs [t₁, t₂, t₃, t₄, t₅, t₆, t₇] s₀).1 =
      [true, true, true, true, true, false, true] ∧
    rateGet (rateLimitRun id 5 windowMs [t₁, t₂, t₃, t₄, t₅, t₆, t₇] s₀).2 id
      = some (RateLimitEntry.mk 1 (t₇ + windowMs)) := by
  refine ⟨?_, ?_⟩ <;>
    simp [rateLimitRun, checkRateLimit, hfresh, rateGet_rateSet_self,
      h₂, h₃, h₄, h₅, h₆, h₇]

/-- Witness for `checkRateLimit_fixed_window`: identifier `client`,
window 1000ms, calls at 0,1,2,3,4,5 and then at 1001. -/
theorem checkRateLimit_fixed_window_witness :
    rateGet ([] : RateLimitState) "client" = none ∧
    ((rateLimitRun "client" 5 1000 [0, 1, 2, 3, 4, 5, 1001] []).1 =
      [true, true, true, true, true, false, true] ∧
      rateGet (rateLimitRun "client" 5 1000 [0, 1, 2, 3, 4, 5, 1001] []).2
        "client" = some (RateLimitEntry.mk 1 (1001 + 1000))) :=
  ⟨by decide,
   checkRateLimit_fixed_window "client" 1000 0 1 2 3 4 5 1001 []
     (by decide) (by decide) (by decide) (by decide) (by decide) (by decide)
     (by decide)⟩

/-- **C5.** After a `get(key, ttl)` call that stored a fresh entry
(fetching once), a second `get(key, ttl)` before `ttl` has elapsed serves
the cached value with no additional fetch — exactly one fetch across the
two calls — while a `get(key, ttl)` after `ttl` has elapsed performs a
second fetch call. -/
theorem credentialCache_fetch_once_within_ttl
    (key : String) (ttl t₁ t₂ t₃ : Int) (resp : SecretsResponse)
    (cache₀ : CacheState) (fetch₂ fetch₃ : FetchOutcome)
    (hstale : ∀ e, cacheGet cache₀ key = some e → ¬ t₁ - e.timestamp < e.ttl)
    (hcomplete : firstMissingField resp = none)
    (hwithin : t₂ - t₁ < ttl)
    (helapsed : ¬ t₃ - t₁ < ttl) :
    getCachedSecrets key ttl t₁ (.payload resp) cache₀ =
      (.ok (toSecretsConfig resp),
       cacheSet cache₀ key (CachedSecret.mk (toSecretsConfig resp) t₁ ttl),
       1) ∧
    getCachedSecrets key ttl t₂ fetch₂
        (cacheSet cache₀ key (CachedSecret.mk (toSecretsConfig resp) t₁ ttl)) =
      (.ok (toSecretsConfig resp),
       cacheSet cache₀ key (CachedSecret.mk (toSecretsConfig resp) t₁ ttl),
       0) ∧
    (getCachedSecrets key ttl t₃ fetch₃
        (cacheSet cache₀ key
          (CachedSecret.mk (toSecretsConfig resp) t₁ ttl))).2.2 = 1 := by
  refine ⟨?_, ?_, ?_⟩
  · cases hc : cacheGet cache₀ key with
    | none => simp [getCachedSecrets, hc, fetchFreshSecrets, hcomplete]
    | some e =>
        have he := hstale e hc
        simp [getCachedSecrets, hc, he, fetchFreshSecrets, hcomplete]
  · simp [getCachedSecrets, cacheGet_cacheSet_self, hwithin]
  · simp [getCachedSecrets, cacheGet_cacheSet_self, helapsed,
      fetchFreshSecrets_fetches_one]

/-- Witness for `credentialCache_fetch_once_within_ttl`: empty starting
cache, TTL 300000ms, first call at 0, second at 100, third at 300000. -/
theorem credentialCache_fetch_once_within_ttl_witness :
    (∀ e, cacheGet ([] : CacheState) "daily-commit-secrets" = some e →
        ¬ (0 : Int) - e.timestamp < e.ttl) ∧
    firstMissingField
        (SecretsResponse.mk (some "e") (some "n") (some "t") (some "r"))
      = none ∧
    (100 : Int) - 0 < 300000 ∧ ¬ (300000 : Int) - 0 < 300000 ∧
    (getCachedSecrets "daily-commit-secrets" 300000 0
        (.payload (SecretsResponse.mk (some "e") (some "n") (some "t")
          (some "r"))) [] =
      (.ok (toSecretsConfig
          (SecretsResponse.mk (some "e") (some "n") (some "t") (some "r"))),
       cacheSet [] "daily-commit-secrets"
         (CachedSecret.mk (toSecretsConfig
           (SecretsResponse.mk (some "e") (some "n") (some "t") (some "r")))
           0 300000), 1) ∧
    getCachedSecrets "daily-commit-secrets" 300000 100 .emptySecret
        (cacheSet [] "daily-commit-secrets"
          (CachedSecret.mk (toSecretsConfig
            (SecretsResponse.mk (some "e") (some "n") (some "t") (some "r")))
            0 300000)) =
      (.ok (toSecretsConfig
          (SecretsResponse.mk (some "e") (some "n") (some "t") (some "r"))),
       cacheSet [] "daily-commit-secrets"
         (CachedSecret.mk (toSecretsConfig
           (SecretsResponse.mk (some "e") (some "n") (some "t") (some "r")))
           0 300000), 0) ∧
    (getCachedSecrets "daily-commit-secrets" 300000 300000
        (.sendError "ECONNREFUSED")
        (cacheSet [] "daily-commit-secrets"
          (CachedSecret.mk (toSecretsConfig
            (SecretsResponse.mk (some "e") (some "n") (some "t") (some "r")))
            0 300000))).2.2 = 1) :=
  ⟨by decide, by decide, by decide, by decide,
   credentialCache_fetch_once_within_ttl "daily-commit-secrets" 300000 0 100
     300000 (SecretsResponse.mk (some "e") (some "n") (some "t") (some "r"))
     [] .emptySecret (.sendError "ECONNREFUSED")
     (by decide) (by decide) (by decide) (by decide)⟩

/-- An operation that always fails with a non-retryable validation error. -/
def c3Ops : Nat → Except JsError Unit :=
  fun _ => .error (JsError.mk "Validation failed" "Error")

/-- A retry policy allowing two attempts. -/
def c3Config : RetryConfig := RetryConfig.mk 2 1000 30000 2 true

/-- **C3 (counterexample).** The claim that a non-retryable failure under
`maxAttempts ≥ 1` produces a RetryExhausted error *reporting 1 attempt
made* is false: with `maxAttempts = 2` and an operation that always fails
with `"Validation failed"`, the operation runs exactly once but the thrown
error reports `config.maxAttempts = 2` attempts (the message is
``Failed after ${config.maxAttempts} attempts``), not the 1 attempt
actually made. -/
theorem withRetry_nonretryable_reports_maxAttempts :
    withRetry c3Ops c3Config "test" =
      (.error (RetryFailure.mk "test" 2
        (some (JsError.mk "Validation failed" "Error"))), 1) ∧
    (RetryFailure.mk "test" 2
        (some (JsError.mk "Validation failed" "Error"))).reportedAttempts
      ≠ 1 :=
  ⟨rfl, by decide⟩

/-- **C3 (amended).** If the wrapped operation always fails with a
non-retryable error and `maxAttempts ≥ 1`, `withRetry` invokes the
operation exactly once and fails with a RetryExhausted error that carries
the label and the underlying failure of that single attempt, but reports
`config.maxAttempts` as the attempt count (equal to the 1 attempt made
only when `maxAttempts = 1`). -/
theorem withRetry_nonretryable_single_invocation {α : Type}
    (ops : Nat → Except JsError α) (config : RetryConfig) (context : String)
    (e : JsError)
    (hops : ops 0 = .error e)
    (hnr : isRetryableError (some e) = false)
    (hmax : 1 ≤ config.maxAttempts) :
    withRetry ops config context =
      (.error (RetryFailure.mk context config.maxAttempts (some e)), 1) := by
  unfold withRetry
  obtain ⟨k, hk⟩ : ∃ k, config.maxAttempts.toNat = k + 1 :=
    ⟨config.maxAttempts.toNat - 1, by omega⟩
  rw [hk]
  cases k with
  | zero => simp [withRetryLoop, hops]
  | succ k => simp [withRetryLoop, hops, hnr]

/-- Witness for `withRetry_nonretryable_single_invocation` at `c3Ops` and
`c3Config`. -/
theorem withRetry_nonretryable_single_invocation_witness :
    c3Ops 0 = .error (JsError.mk "Validation failed" "Error") ∧
    isRetryableError (some (JsError.mk "Validation failed" "Error")) = false ∧
    (1 : Int) ≤ c3Config.maxAttempts ∧
    withRetry c3Ops c3Config "secrets" =
      (.error (RetryFailure.mk "secrets" c3Config.maxAttempts
        (some (JsError.mk "Validation failed" "Error"))), 1) :=
  ⟨rfl, by decide, by decide,
   withRetry_nonretryable_single_invocation c3Ops c3Config "secrets"
     (JsError.mk "Validation failed" "Error") rfl (by decide) (by decide)⟩

/-- An operation that always fails (it is never reached under a
non-positive attempt bound). -/
def c8Ops : Nat → Except JsError Unit :=
  fun _ => .error (JsError.mk "Test error" "Error")

/-- A retry policy with a negative attempt bound. -/
def c8Config : RetryConfig := RetryConfig.mk (-1) 1000 30000 2 true

/-- **C8 (counterexample).** The claim that `maxAttempts ≤ 0` makes
`withRetry` fail *reporting zero attempts* is false for negative bounds:
with `maxAttempts = -1` the operation is never invoked and the error
carries no underlying failure, but it reports `-1` attempts (the message
is ``Failed after -1 attempts. Last error: undefined``), not zero. -/
theorem withRetry_negative_reports_negative :
    withRetry c8Ops c8Config "test" =
      (.error (RetryFailure.mk "test" (-1) none), 0) ∧
    ((-1 : Int) ≠ 0) :=
  ⟨rfl, by decide⟩

/-- **C8 (amended).** If `config.maxAttempts ≤ 0`, `withRetry` never
invokes the operation and immediately fails with a RetryExhausted error
carrying no underlying error and reporting `config.maxAttempts` as the
attempt count — which equals the claimed zero exactly when
`maxAttempts = 0`. -/
theorem withRetry_nonpositive_never_invokes {α : Type}
    (ops : Nat → Except JsError α) (config : RetryConfig) (context : String)
    (h : config.maxAttempts ≤ 0) :
    withRetry ops config context =
      (.error (RetryFailure.mk context config.maxAttempts none), 0) := by
  unfold withRetry
  have hz : config.maxAttempts.toNat = 0 := by omega
  rw [hz]
  rfl

/-- Witness for `withRetry_nonpositive_never_invokes` at
`maxAttempts = 0`. -/
theorem withRetry_nonpositive_never_invokes_witness :
    (RetryConfig.mk 0 1000 30000 2 true).maxAttempts ≤ 0 ∧
    withRetry c8Ops (RetryConfig.mk 0 1000 30000 2 true) "git" =
      (.error (RetryFailure.mk "git"
        (RetryConfig.mk 0 1000 30000 2 true).maxAttempts none), 0) :=
  ⟨by decide,
   withRetry_nonpositive_never_invokes c8Ops
     (RetryConfig.mk 0 1000 30000 2 true) "git" (by decide)⟩

/-- Unfolding lemma: one `recordRun` step in terms of
`sendOptimizedMetrics`. -/
theorem recordRun_cons (batchSize : Nat) (sinkOk : Bool)
    (m : OptimizedMetrics) (t : Int) (rest : List (OptimizedMetrics × Int))
    (s : MetricsState) :
    recordRun batchSize sinkOk ((m, t) :: rest) s =
      ((recordRun batchSize sinkOk rest
          (sendOptimizedMetrics batchSize m t sinkOk s).1).1,
       (if (sendOptimizedMetrics batchSize m t sinkOk s).2.1 then 1 else 0) +
         (recordRun batchSize sinkOk rest
           (sendOptimizedMetrics batchSize m t sinkOk s).1).2.1,
       (sendOptimizedMetrics batchSize m t sinkOk s).2.2.toList ++
         (recordRun batchSize sinkOk rest
           (sendOptimizedMetrics batchSize m t sinkOk s).1).2.2) := rfl

/-- Helper for the batching claim: starting from a batch that the given
events exactly fill up to `batchSize` (all events inside the 5-minute
window, so no time-based flush fires early), the run performs exactly one
flush, transmits the aggregate of the whole batch, and leaves the module
batch empty. -/
theorem recordRun_threshold (batchSize : Nat) (sinkOk : Bool) :
    ∀ (events : List (OptimizedMetrics × Int)) (s : MetricsState),
      events ≠ [] →
      s.moduleBatch.length + events.length = batchSize →
      (∀ p ∈ events, p.2 - s.lastMetricsSend ≤ METRICS_BATCH_TIMEOUT) →
      (recordRun batchSize sinkOk events s).2.1 = 1 ∧
      (recordRun batchSize sinkOk events s).2.2 =
        [aggregate (s.moduleBatch ++ events.map Prod.fst)] ∧
      (recordRun batchSize sinkOk events s).1.moduleBatch = [] := by
  intro events
  induction events with
  | nil => intro s hne _ _; exact absurd rfl hne
  | cons hd tl ih =>
      obtain ⟨m, t⟩ := hd
      intro s _ hlen htime
      cases tl with
      | nil =>
          have hsend : batchSize ≤ s.moduleBatch.length + 1 := by
            simp only [List.length_singleton] at hlen
            omega
          cases sinkOk <;>
            simp [recordRun, sendOptimizedMetrics, sendBatchedMetrics, hsend]
      | cons hd₂ tl₂ =>
          have hshort : ¬ batchSize ≤ s.moduleBatch.length + 1 := by
            simp only [List.length_cons] at hlen
            omega
          have hT : ¬ METRICS_BATCH_TIMEOUT < t - s.lastMetricsSend :=
            not_lt.mpr (htime (m, t) (List.mem_cons_self _ _))
          have step :
              sendOptimizedMetrics batchSize m t sinkOk s =
                ({ s with
                    moduleBatch := s.moduleBatch ++ [m]
                    globalBatch :=
                      if s.aliased then s.moduleBatch ++ [m]
                      else s.globalBatch },
                 false, none) := by
            simp [sendOptimizedMetrics, hshort, hT]
          have ihres := ih
            { s with
              moduleBatch := s.moduleBatch ++ [m]
              globalBatch :=
                if s.aliased then s.moduleBatch ++ [m] else s.globalBatch }
            (by simp)
            (by simp only [List.length_append, List.length_cons,
                  List.length_nil, List.length_singleton] at hlen ⊢; omega)
            (fun p hp => htime p (List.mem_cons_of_mem _ hp))
          rw [recordRun_cons, step]
          refine ⟨?_, ?_, ?_⟩ <;>
            simp [ihres.1, ihres.2.1, ihres.2.2]

/-- **C6.** Recording metrics one record at a time (all within the
5-minute window of the last flush), the record call that brings the batch
length to `batchSizeThreshold` triggers exactly one synchronous flush
whose `AggregatedMetric` has `totalExecutions` equal to the threshold, and
the batch is empty immediately after that record call returns. -/
theorem metricsAggregator_threshold_flush (batchSize : Nat) (sinkOk : Bool)
    (events : List (OptimizedMetrics × Int)) (s₀ : MetricsState)
    (hempty : s₀.moduleBatch = [])
    (hlen : events.length = batchSize)
    (hpos : 1 ≤ batchSize)
    (htime : ∀ p ∈ events, p.2 - s₀.lastMetricsSend ≤ METRICS_BATCH_TIMEOUT) :
    (recordRun batchSize sinkOk events s₀).2.1 = 1 ∧
    (recordRun batchSize sinkOk events s₀).1.moduleBatch = [] ∧
    (recordRun batchSize sinkOk events s₀).2.2.map
      AggregatedMetric.totalExecutions = [batchSize] := by
  have hne : events ≠ [] := by
    intro h
    rw [h] at hlen
    simp at hlen
    omega
  have hl : s₀.moduleBatch.length + events.length = batchSize := by
    simp [hempty, hlen]
  obtain ⟨h1, h2, h3⟩ :=
    recordRun_threshold batchSize sinkOk events s₀ hne hl htime
  refine ⟨h1, h3, ?_⟩
  rw [h2]
  simp [aggregate, hempty, hlen]

/-- Witness for `metricsAggregator_threshold_flush`: threshold 2, a fresh
state, records at times 5 and 6. -/
theorem metricsAggregator_threshold_flush_witness :
    initialMetricsState.moduleBatch = [] ∧
    ([(OptimizedMetrics.mk 10 true 0 0, (5 : Int)),
      (OptimizedMetrics.mk 20 false 1 2, 6)].length = 2) ∧
    (1 ≤ 2) ∧
    (∀ p ∈ [(OptimizedMetrics.mk 10 true 0 0, (5 : Int)),
        (OptimizedMetrics.mk 20 false 1 2, 6)],
      p.2 - initialMetricsState.lastMetricsSend ≤ METRICS_BATCH_TIMEOUT) ∧
    ((recordRun 2 true [(OptimizedMetrics.mk 10 true 0 0, (5 : Int)),
        (OptimizedMetrics.mk 20 false 1 2, 6)] initialMetricsState).2.1 = 1 ∧
     (recordRun 2 true [(OptimizedMetrics.mk 10 true 0 0, (5 : Int)),
        (OptimizedMetrics.mk 20 false 1 2, 6)]
          initialMetricsState).1.moduleBatch = [] ∧
     (recordRun 2 true [(OptimizedMetrics.mk 10 true 0 0, (5 : Int)),
        (OptimizedMetrics.mk 20 false 1 2, 6)] initialMetricsState).2.2.map
        AggregatedMetric.totalExecutions = [2]) :=
  ⟨rfl, rfl, by decide, by decide,
   metricsAggregator_threshold_flush 2 true
     [(OptimizedMetrics.mk 10 true 0 0, (5 : Int)),
      (OptimizedMetrics.mk 20 false 1 2, 6)] initialMetricsState
     rfl rfl (by decide) (by decide)⟩

end SuperPancake
